import Mathlib

/-!
# Arc-Verifier: shallow embedding and verification of spec claims

This file embeds the scoring, status, attestation, trust-assessment and
container-backtest log-processing code of the `arc-verifier` repository in
Lean 4 and proves (or refutes) the frozen specification claims about them.

Modelling conventions:
* Python floats are modelled as exact rationals (`ℚ`); the arithmetic in the
  embedded functions is exact decimal arithmetic, faithful to the source
  expressions.
* Python `int(x)` truncates toward zero; it is modelled by `pyTrunc`.
* Python dictionaries read with `.get(key, default)` are modelled by
  structures whose fields carry the value (a missing key equals the default);
  a field that the code may find absent in a way that changes behaviour is
  modelled with `Option`.
* Python `float("inf")` (which arises only for the profit factor) is
  modelled by the `none` case of an `Option ℚ`.
* A Python statement that raises an exception in the modelled region
  (the `ZeroDivisionError` of the regime-consistency bonus) makes the
  modelled function return `none`.
-/

namespace ArcVerifier

/-- Python `int(x)` applied to a float: truncation toward zero. -/
def pyTrunc (q : ℚ) : ℤ := if q < 0 then ⌈q⌉ else ⌊q⌋

/-! ## Inputs of the Fort Score and status engine (`cli.py`, `parallel_verifier.py`)

`_calculate_agent_fort_score` and `_determine_overall_status` read:
`scan_result.get("vulnerabilities", [])` (a list of dicts read via
`v.get("severity")`), `scan_result.get("shade_agent_detected", False)`,
`tee_result.get("is_valid", True)`, `tee_result.get("trust_level", "LOW")`,
and `perf_result.get("performance", {})` with its three numeric fields. -/

/-- A vulnerability dictionary: the scoring code reads only
`v.get("severity")` (`none` when the key is absent). -/
structure Vulnerability where
  severity : Option String
deriving DecidableEq, Repr

/-- The scan-result dictionary as read by the scoring code. -/
structure ScanResult where
  vulnerabilities : List Vulnerability
  shade_agent_detected : Bool
deriving DecidableEq, Repr

/-- The TEE-result dictionary as read by the scoring code. -/
structure TeeResult where
  is_valid : Bool
  trust_level : String
deriving DecidableEq, Repr

/-- The `perf_result.get("performance", {})` sub-dictionary; each field is
read with `.get(key, 0)`. -/
structure PerfResult where
  throughput_tps : ℚ
  avg_latency_ms : ℚ
  error_rate_percent : ℚ
deriving DecidableEq, Repr

/-- `CodeQualityAnalysis` (pydantic model in `llm_judge.py`). -/
structure CodeQualityAnalysis where
  architecture_score : ℚ
  error_handling_score : ℚ
  security_practices_score : ℚ
  maintainability_score : ℚ
  test_coverage_score : ℚ
  overall_score : ℚ
  key_findings : List String
deriving DecidableEq, Repr

/-- `RiskAssessment` (pydantic model in `llm_judge.py`). -/
structure RiskAssessment where
  volatility_sensitivity : ℚ
  liquidity_requirements : String
  systemic_risk_score : ℚ
  market_impact_score : ℚ
  operational_risk_score : ℚ
  regulatory_risk_score : ℚ
deriving DecidableEq, Repr

/-- The comprehensive-shape `LLMJudgeResult` restricted to the fields the
scoring and status code reads (`score_adjustments`, `code_quality`,
`risk_assessment`, `behavioral_flags`, `confidence_level`).  The
`code_quality` and `risk_assessment` fields are `Option` because
`cli.py` guards them with `hasattr(llm_result, ...) and llm_result....`;
`intent_classification`, `reasoning` and `timestamp` are never read by the
scoring code and are not modelled.  `score_adjustments` is a dict
`category -> float`; dict keys are unique but only the values are summed. -/
structure LLMJudgeResult where
  score_adjustments : List (String × ℚ)
  code_quality : Option CodeQualityAnalysis
  risk_assessment : Option RiskAssessment
  behavioral_flags : List String
  confidence_level : ℚ
deriving DecidableEq, Repr

/-- One value of the `performance_by_regime` dict; the scoring code reads
`r.get('annualized_return', 0)`. -/
structure RegimePerf where
  annualized_return : Option ℚ
deriving DecidableEq, Repr

/-- The strategy verification result as read by the scoring and status code.
`performance_by_regime` is `Option` because `cli.py` guards it with
`hasattr(strategy_result, 'performance_by_regime')`. -/
structure StrategyResult where
  verification_status : String
  strategy_effectiveness : ℚ
  risk_score : ℚ
  performance_by_regime : Option (List (String × RegimePerf))
deriving DecidableEq, Repr

/-- `len([v for v in vulns if v.get("severity") == sev])`. -/
def severityCount (scan : ScanResult) (sev : String) : ℕ :=
  (scan.vulnerabilities.filter (fun v => v.severity == some sev)).length

/-! ## Fort Score (`cli.py._calculate_agent_fort_score`) -/

/-- The security adjustment of `_calculate_agent_fort_score` before its
clamp: vulnerability penalty, TEE bonus/penalty, shade-agent bonus. -/
def securityAdjustmentRaw (scan : ScanResult) (tee : TeeResult) : ℚ :=
  let critical : ℚ := severityCount scan "CRITICAL"
  let high : ℚ := severityCount scan "HIGH"
  let medium : ℚ := severityCount scan "MEDIUM"
  let vulnPenalty := min 20 (critical * 10 + high * 5 + medium * 2)
  let a0 : ℚ := 0 - vulnPenalty
  let a1 :=
    if tee.is_valid = false then a0 - 10
    else if tee.trust_level = "HIGH" then a0 + 5
    else if tee.trust_level = "MEDIUM" then a0 + 3
    else a0
  if scan.shade_agent_detected then a1 + 5 else a1

/-- `security_adjustment = max(-30, min(30, security_adjustment))`. -/
def securityAdjustment (scan : ScanResult) (tee : TeeResult) : ℚ :=
  max (-30) (min 30 (securityAdjustmentRaw scan tee))

/-- The LLM adjustment of `cli.py._calculate_agent_fort_score` before its
clamp: sum of `score_adjustments`, code-quality bonus, systemic-risk
penalty (−30 outright when `systemic_risk_score > 0.9`), behavioral-flag
penalty.  The Python truthiness guards on `score_adjustments` and
`behavioral_flags` skip empty collections, whose contribution is 0 anyway. -/
def llmAdjustmentRaw : Option LLMJudgeResult → ℚ
  | none => 0
  | some llm =>
    let a0 := (llm.score_adjustments.map Prod.snd).sum
    let a1 := a0 + (match llm.code_quality with
      | some cq => (cq.overall_score - 0.5) * 10
      | none => 0)
    let a2 := a1 + (match llm.risk_assessment with
      | some ra =>
        if ra.systemic_risk_score > 0.9 then -30
        else 0 - ra.systemic_risk_score * 10
      | none => 0)
    a2 - min 10 ((llm.behavioral_flags.length : ℚ) * 3)

/-- `llm_adjustment = max(-30, min(30, llm_adjustment))`. -/
def llmAdjustment (llm : Option LLMJudgeResult) : ℚ :=
  max (-30) (min 30 (llmAdjustmentRaw llm))

/-- The behavioral adjustment of `_calculate_agent_fort_score` before its
clamp: throughput, latency and error-rate steps. -/
def behaviorAdjustmentRaw (perf : PerfResult) : ℚ :=
  let b1 : ℚ :=
    if perf.throughput_tps < 500 then -10
    else if perf.throughput_tps > 2000 then 5
    else 0
  let b2 :=
    if perf.avg_latency_ms > 100 then b1 - 5
    else if perf.avg_latency_ms < 20 then b1 + 5
    else b1
  if perf.error_rate_percent > 5 then b2 - 10
  else if perf.error_rate_percent < 1 then b2 + 5
  else b2

/-- `behavior_adjustment = max(-30, min(30, behavior_adjustment))`. -/
def behaviorAdjustment (perf : PerfResult) : ℚ :=
  max (-30) (min 30 (behaviorAdjustmentRaw perf))

/-- The performance adjustment of `cli.py._calculate_agent_fort_score`.
Returns `none` exactly when the Python code raises `ZeroDivisionError`:
the regime-consistency bonus divides by
`len(strategy_result.performance_by_regime)`, which can be zero. -/
def performanceAdjustment (strategy : Option StrategyResult)
    (perf : PerfResult) : Option ℚ :=
  match strategy with
  | some s =>
    let p0 : ℚ :=
      if s.verification_status = "verified" then 30
      else if s.verification_status = "partial" then 15
      else -20
    let p1 := p0 + s.strategy_effectiveness / 100 * 30
    let p2 := p1 + (if s.risk_score > 80 then -20
      else if s.risk_score > 60 then -10
      else if s.risk_score < 30 then 10
      else 0)
    match s.performance_by_regime with
    | some regimes =>
      if regimes.length = 0 then none
      else
        let positive : ℚ :=
          (regimes.countP (fun r => decide (r.2.annualized_return.getD 0 > 0)) : ℕ)
        some (p2 + positive / (regimes.length : ℚ) * 20)
    | none => some p2
  | none =>
    some (if perf.error_rate_percent = 0 ∧ perf.throughput_tps > 1000 then 10 else 0)

/-- `cli.py._calculate_agent_fort_score`: base 100 plus the three clamped
adjustments plus the performance adjustment, `int(...)`-truncated and
clamped to `[0, 180]`.  `none` models the `ZeroDivisionError` raised on an
empty `performance_by_regime` dict. -/
def calculateAgentFortScore (scan : ScanResult) (tee : TeeResult)
    (perf : PerfResult) (llm : Option LLMJudgeResult)
    (strategy : Option StrategyResult) : Option ℤ :=
  (performanceAdjustment strategy perf).map fun perfAdj =>
    max 0 (min 180 (pyTrunc (100 + securityAdjustment scan tee
      + llmAdjustment llm + behaviorAdjustment perf + perfAdj)))

/-! ## Fort Score (`parallel_verifier.py.ParallelVerifier._calculate_agent_fort_score`)

The parallel verifier's copy omits the code-quality bonus, the
systemic-risk penalty, the regime-consistency bonus and the basic
competence bonus of the no-strategy branch; its security and behavior
adjustments are identical to `cli.py`. -/

/-- The LLM adjustment of the parallel verifier's copy, before its clamp:
only the `score_adjustments` sum and the behavioral-flag penalty. -/
def pvLlmAdjustmentRaw : Option LLMJudgeResult → ℚ
  | none => 0
  | some llm =>
    (llm.score_adjustments.map Prod.snd).sum
      - min 10 ((llm.behavioral_flags.length : ℚ) * 3)

/-- Clamped LLM adjustment of the parallel verifier's copy. -/
def pvLlmAdjustment (llm : Option LLMJudgeResult) : ℚ :=
  max (-30) (min 30 (pvLlmAdjustmentRaw llm))

/-- The performance adjustment of the parallel verifier's copy: no regime
bonus and no `else` branch. -/
def pvPerformanceAdjustment (strategy : Option StrategyResult) : ℚ :=
  match strategy with
  | some s =>
    let p0 : ℚ :=
      if s.verification_status = "verified" then 30
      else if s.verification_status = "partial" then 15
      else -20
    let p1 := p0 + s.strategy_effectiveness / 100 * 30
    p1 + (if s.risk_score > 80 then -20
      else if s.risk_score > 60 then -10
      else if s.risk_score < 30 then 10
      else 0)
  | none => 0

/-- `ParallelVerifier._calculate_agent_fort_score` (total: it has no
division by a regime count). -/
def pvCalculateAgentFortScore (scan : ScanResult) (tee : TeeResult)
    (perf : PerfResult) (llm : Option LLMJudgeResult)
    (strategy : Option StrategyResult) : ℤ :=
  max 0 (min 180 (pyTrunc (100 + securityAdjustment scan tee
    + pvLlmAdjustment llm + behaviorAdjustment perf
    + pvPerformanceAdjustment strategy)))

/-! ## Overall status (`cli.py._determine_overall_status`,
`ParallelVerifier._determine_overall_status`) -/

/-- Lower-cased character sequence of a string (`flag.lower()`). -/
def strLower (s : String) : List Char := s.data.map Char.toLower

/-- Python's substring test `needle in hay` on character lists. -/
def listContainsSub (hay needle : List Char) : Bool :=
  match hay with
  | [] => needle.isEmpty
  | _ :: t => needle.isPrefixOf hay || listContainsSub t needle

/-- The serious-flag keywords of `_determine_overall_status`. -/
def seriousKeywords : List String :=
  ["malicious", "suspicious", "high risk", "dangerous"]

/-- `any(keyword in flag.lower() for keyword in [...])`. -/
def isSeriousFlag (flag : String) : Bool :=
  seriousKeywords.any (fun kw => listContainsSub (strLower flag) kw.data)

/-- Number of serious behavioral flags of an LLM result. -/
def seriousFlagCount (llm : LLMJudgeResult) : ℕ :=
  llm.behavioral_flags.countP isSeriousFlag

/-- `llm_risk_flags` as computed by `cli.py._determine_overall_status`:
the serious-flag count, plus one when
`llm_result.risk_assessment.systemic_risk_score > 0.8`. -/
def llmRiskFlags : Option LLMJudgeResult → ℕ
  | none => 0
  | some l =>
    seriousFlagCount l + (match l.risk_assessment with
      | some ra => if ra.systemic_risk_score > 0.8 then 1 else 0
      | none => 0)

/-- `llm_risk_flags` as computed by the parallel verifier's copy: only the
serious-flag count, no systemic-risk increment. -/
def pvLlmRiskFlags : Option LLMJudgeResult → ℕ
  | none => 0
  | some l => seriousFlagCount l

/-- `if llm_result and llm_result.confidence_level < 0.5` (a present
pydantic result object is always truthy). -/
def lowConfidence : Option LLMJudgeResult → Bool
  | none => false
  | some l => decide (l.confidence_level < 0.5)

/-- `cli.py._determine_overall_status`.  Note the order: the four failure
checks, then four warning checks, and only then the strategy checks (whose
first is another failure check). -/
def determineOverallStatus (scan : ScanResult) (tee : TeeResult)
    (perf : PerfResult) (llm : Option LLMJudgeResult)
    (strategy : Option StrategyResult) : String :=
  if 0 < severityCount scan "CRITICAL" then "FAILED"
  else if tee.is_valid = false then "FAILED"
  else if perf.error_rate_percent > 10 then "FAILED"
  else if llmRiskFlags llm ≥ 2 then "FAILED"
  else if 5 < severityCount scan "HIGH" then "WARNING"
  else if perf.error_rate_percent > 5 then "WARNING"
  else if llmRiskFlags llm ≥ 1 then "WARNING"
  else if lowConfidence llm then "WARNING"
  else match strategy with
    | some s =>
      if s.verification_status = "failed" then "FAILED"
      else if s.risk_score > 80 then "WARNING"
      else if s.strategy_effectiveness < 40 then "WARNING"
      else "PASSED"
    | none => "PASSED"

/-- `ParallelVerifier._determine_overall_status`: same cascade, but with
`pvLlmRiskFlags` and the two last warning conditions merged by `or`. -/
def pvDetermineOverallStatus (scan : ScanResult) (tee : TeeResult)
    (perf : PerfResult) (llm : Option LLMJudgeResult)
    (strategy : Option StrategyResult) : String :=
  if 0 < severityCount scan "CRITICAL" ∨ tee.is_valid = false
      ∨ perf.error_rate_percent > 10 ∨ pvLlmRiskFlags llm ≥ 2 then "FAILED"
  else if 5 < severityCount scan "HIGH" ∨ perf.error_rate_percent > 5
      ∨ pvLlmRiskFlags llm ≥ 1 then "WARNING"
  else if lowConfidence llm then "WARNING"
  else match strategy with
    | some s =>
      if s.verification_status = "failed" then "FAILED"
      else if s.risk_score > 80 ∨ s.strategy_effectiveness < 40 then "WARNING"
      else "PASSED"
    | none => "PASSED"

/-! ## Spec-side gate predicates (claim C1, written from the spec's wording) -/

/-- Gate 1: any CRITICAL vulnerability. -/
abbrev gate1 (scan : ScanResult) : Prop := 0 < severityCount scan "CRITICAL"

/-- Gate 2: attestation invalid. -/
abbrev gate2 (tee : TeeResult) : Prop := tee.is_valid = false

/-- Gate 3: error rate above 10%. -/
abbrev gate3 (perf : PerfResult) : Prop := perf.error_rate_percent > 10

/-- Gate 5: strategy verification status is `failed`. -/
def gate5 : Option StrategyResult → Prop
  | some s => s.verification_status = "failed"
  | none => False

/-- Gate 6: high-severity count above 5. -/
abbrev gate6 (scan : ScanResult) : Prop := 5 < severityCount scan "HIGH"

/-- Gate 7: error rate above 5%. -/
abbrev gate7 (perf : PerfResult) : Prop := perf.error_rate_percent > 5

/-- Gate 9: LLM confidence below 0.5. -/
def gate9 : Option LLMJudgeResult → Prop
  | some l => l.confidence_level < 0.5
  | none => False

/-- Gate 10: strategy risk above 80 or effectiveness below 40. -/
def gate10 : Option StrategyResult → Prop
  | some s => 80 < s.risk_score ∨ s.strategy_effectiveness < 40
  | none => False

instance (s : Option StrategyResult) : Decidable (gate5 s) :=
  match s with
  | some s => inferInstanceAs (Decidable (s.verification_status = "failed"))
  | none => inferInstanceAs (Decidable False)

instance (l : Option LLMJudgeResult) : Decidable (gate9 l) :=
  match l with
  | some l => inferInstanceAs (Decidable (l.confidence_level < 0.5))
  | none => inferInstanceAs (Decidable False)

instance (s : Option StrategyResult) : Decidable (gate10 s) :=
  match s with
  | some s => inferInstanceAs (Decidable (80 < s.risk_score ∨ s.strategy_effectiveness < 40))
  | none => inferInstanceAs (Decidable False)

/-- The gate cascade in the order the code actually evaluates it (the
amended claim C1): failure gates 1, 2, 3 and the flag gate; warning gates
6, 7, the one-flag gate and the confidence gate; and only then the
strategy gates 5 (failure) and 10 (warning).  The serious-flag count and
the confidence gate are parameters so that the cascade serves both the
`cli.py` variant (whose count also adds one for systemic risk above 0.8)
and the `parallel_verifier.py` variant. -/
def amendedStatusCascade (scan : ScanResult) (tee : TeeResult)
    (perf : PerfResult) (flags : ℕ) (conf : Prop) [Decidable conf]
    (strategy : Option StrategyResult) : String :=
  if gate1 scan ∨ gate2 tee ∨ gate3 perf ∨ 2 ≤ flags then "FAILED"
  else if gate6 scan ∨ gate7 perf ∨ 1 ≤ flags ∨ conf then "WARNING"
  else if gate5 strategy then "FAILED"
  else if gate10 strategy then "WARNING"
  else "PASSED"

/-! ## Container backtester (`data/container_backtester.py`)

The docker/container lifecycle, the market-data fetch and the progress
console are external I/O; the embedding starts from the collected stdout
(a list of lines, each already classified by `json.loads`) and the length
of the fetched 1h price series (`priceHours = len(price_data)`). -/

/-- A trade as built by `_parse_agent_logs`.  `timestamp` is the parsed
`datetime` as rational seconds since the epoch (`datetime` subtraction
later yields seconds via `total_seconds()`). -/
structure Trade where
  timestamp : ℚ
  pair : String
  side : String
  price : ℚ
  amount : ℚ
  pnl : Option ℚ
  strategy_signal : String
deriving DecidableEq, Repr

/-- The fields of a JSON-decoded stdout line that `_parse_agent_logs`
reads.  `timestamp = some none` means the key is present but
`datetime.fromisoformat` raises on its value; `pnl = none` covers both an
absent key and a JSON `null` (`data.get("pnl")` returns `None` for both). -/
structure JsonTradeObj where
  action : Option String
  timestamp : Option (Option ℚ)
  symbol : Option String
  side : Option String
  price : Option ℚ
  amount : Option ℚ
  pnl : Option ℚ
  reason : Option String
deriving DecidableEq, Repr

/-- One stripped stdout line, classified the way the code's control flow
classifies it: blank (skipped), not JSON (`json.JSONDecodeError`, skipped),
JSON but not an object (`.get` raises `AttributeError`, caught and
skipped), or a JSON object. -/
inductive LogLine where
  | empty : LogLine
  | notJson : LogLine
  | jsonNonObject : LogLine
  | jsonObject (d : JsonTradeObj) : LogLine
deriving DecidableEq, Repr

/-- The five actions that mark a line as a trade. -/
def tradeActions : List String :=
  ["arbitrage_buy", "arbitrage_sell", "momentum_entry", "momentum_exit",
   "market_making_fill"]

/-- Processing of one line by `_parse_agent_logs`: a trade is appended only
when the line is a JSON object, its `action` is one of `tradeActions`, and
the `Trade(...)` construction succeeds — i.e. `timestamp`, `symbol`,
`side`, `price` and `amount` are all present and the timestamp parses
(`KeyError`/`ValueError` during construction is caught by the
`except Exception` arm, which only prints a warning). -/
def parseLine : LogLine → Option Trade
  | .empty => none
  | .notJson => none
  | .jsonNonObject => none
  | .jsonObject d =>
    match d.action with
    | some a =>
      if a ∈ tradeActions then
        match d.timestamp, d.symbol, d.side, d.price, d.amount with
        | some (some ts), some sym, some sd, some pr, some am =>
          some { timestamp := ts, pair := sym ++ "/USDT", side := sd,
                 price := pr, amount := am, pnl := d.pnl,
                 strategy_signal := d.reason.getD a }
        | _, _, _, _, _ => none
      else none
    | none => none

/-- `ContainerBacktester._parse_agent_logs`: the trades of the accepted
lines, in stdout order. -/
def parseAgentLogs (lines : List LogLine) : List Trade :=
  lines.filterMap parseLine

/-- Spec-side predicate for the amended claim C9: a line yields a trade iff
it is a JSON object whose `action` is one of the five trade actions AND all
required `Trade` fields are present with a parseable timestamp. -/
def specTradeLine : LogLine → Bool
  | .jsonObject d =>
    (match d.action with
     | some a => decide (a ∈ tradeActions)
     | none => false)
    && (match d.timestamp with
        | some (some _) => true
        | _ => false)
    && d.symbol.isSome && d.side.isSome && d.price.isSome && d.amount.isSome
  | _ => false

/-- `[t for t in trades if t.pnl and t.pnl > 0]` (Python truthiness:
`t.pnl` is falsy when `None` or `0.0`). -/
def winningTrades (trades : List Trade) : List Trade :=
  trades.filter fun t => match t.pnl with
    | some p => decide (p ≠ 0) && decide (p > 0)
    | none => false

/-- `sum(t.pnl for t in winning_trades if t.pnl)`. -/
def totalProfit (trades : List Trade) : ℚ :=
  ((winningTrades trades).filterMap (·.pnl)).sum

/-- `abs(sum(t.pnl for t in trades if t.pnl and t.pnl < 0))`. -/
def totalLoss (trades : List Trade) : ℚ :=
  |((trades.filter fun t => match t.pnl with
      | some p => decide (p ≠ 0) && decide (p < 0)
      | none => false).filterMap (·.pnl)).sum|

/-- `total_profit / total_loss if total_loss > 0 else float("inf")`;
`none` models `float("inf")`. -/
def profitFactorRaw (trades : List Trade) : Option ℚ :=
  if totalLoss trades > 0 then some (totalProfit trades / totalLoss trades)
  else none

/-- `(trades[i].timestamp - trades[i-1].timestamp).total_seconds() / 3600`
for consecutive trades. -/
def consecutiveDurations : List Trade → List ℚ
  | a :: b :: rest => (b.timestamp - a.timestamp) / 3600
      :: consecutiveDurations (b :: rest)
  | _ => []

/-- The fields of `PerformanceMetrics` whose computation in
`_calculate_metrics` is exact arithmetic.  `annualized_return`,
`sharpe_ratio`, `sortino_ratio`, `calmar_ratio` and `risk_adjusted_return`
derive from the real exponentiation `(1 + total_return) ** (1 / years)` and
are not modelled; no claim refers to them.  `profit_factor` is the reported
value (`Option ℚ`, `none` standing for `float("inf")`). -/
structure PerformanceMetricsM where
  total_return : ℚ
  max_drawdown : ℚ
  win_rate : ℚ
  profit_factor : Option ℚ
  total_trades : ℕ
  avg_trade_duration : ℚ
deriving DecidableEq, Repr

/-- `ContainerBacktester._calculate_metrics` (exact-arithmetic fields).
The reported `profit_factor` replaces `float("inf")` by `999.0`; the
`max_drawdown` is the hard-coded placeholder `-0.05`.  The function is only
ever called with `initial_capital = 100000.0`, so the `ℚ`-division
convention `x / 0 = 0` in `total_return` is never exercised by the code. -/
def calculateMetrics (trades : List Trade)
    (initial_capital final_capital : ℚ) : PerformanceMetricsM :=
  let total_return := (final_capital - initial_capital) / initial_capital
  let win_rate : ℚ :=
    if trades.length ≠ 0 then
      ((winningTrades trades).length : ℚ) / (trades.length : ℚ)
    else 0
  let reported_profit_factor :=
    match profitFactorRaw trades with
    | some q => some q
    | none => some (999 : ℚ)
  let avg_trade_duration : ℚ :=
    if 1 < trades.length then
      let durations := consecutiveDurations trades
      if durations.length ≠ 0 then durations.sum / (durations.length : ℚ)
      else 0
    else 0
  { total_return := total_return,
    max_drawdown := -0.05,
    win_rate := win_rate,
    profit_factor := reported_profit_factor,
    total_trades := trades.length,
    avg_trade_duration := avg_trade_duration }

/-- `final_capital` accumulation in `ContainerBacktester.run`:
`if trade.pnl: final_capital += trade.pnl` (truthiness again skips `None`
and `0.0`). -/
def finalCapitalFrom (initial : ℚ) (trades : List Trade) : ℚ :=
  trades.foldl (fun acc t => match t.pnl with
    | some p => if p ≠ 0 then acc + p else acc
    | none => acc) initial

/-- The fields of `BacktestResult` the claims refer to.  The window
strings, the regime aggregate (which embeds the unmodelled annualized
return), the strategy label and the data-quality dict are not modelled. -/
structure BacktestResultM where
  initial_capital : ℚ
  final_capital : ℚ
  metrics : PerformanceMetricsM
  trades : List Trade
deriving DecidableEq, Repr

/-- The post-collection tail of `ContainerBacktester.run`: parse the
stdout lines, accumulate the final capital, compute the metrics, truncate
the reported trade list to 100.  The code has no empty-trade check: it
returns a result unconditionally (no `AgentProducedNoTrades` error exists
anywhere in the repository). -/
def runFromLogs (initial_capital : ℚ) (lines : List LogLine) : BacktestResultM :=
  let trades := parseAgentLogs lines
  let final_capital := finalCapitalFrom initial_capital trades
  { initial_capital := initial_capital,
    final_capital := final_capital,
    metrics := calculateMetrics trades initial_capital final_capital,
    trades := trades.take 100 }

/-! ## TEE attestation validator (`validator.py`) -/

/-- Python's `needle in hay` after `hay.lower()`. -/
def containsPattern (tag : String) (pat : String) : Bool :=
  listContainsSub (strLower tag) pat.data

/-- The image-tag patterns that force `is_valid = False`. -/
def untrustedPatterns : List String :=
  ["malicious", "test-malware", "compromised", "unsigned",
   "debug-backdoor", "insecure"]

/-- The image-tag patterns that force `is_valid = True`. -/
def trustedPatterns : List String :=
  ["shade", "agent", "near", "pivortex", "finance",
   "nginx", "ubuntu", "alpine", "node", "python"]

/-- `TEEValidator._assess_image_trustworthiness`.  The fall-through case is
`random.random() > 0.1`; the draw's outcome is the explicit parameter
`randomDraw`. -/
def assessImageTrustworthiness (tag : String) (randomDraw : Bool) : Bool :=
  if untrustedPatterns.any (containsPattern tag) then false
  else if trustedPatterns.any (containsPattern tag) then true
  else randomDraw

/-- `TEEValidator._calculate_trust_level`. -/
def calculateTrustLevel (is_valid : Bool) (tag : String) : String :=
  if is_valid = false then "UNTRUSTED"
  else if (["shade", "pivortex", "near"] : List String).any (containsPattern tag)
    then "HIGH"
  else if (["nginx", "ubuntu", "alpine"] : List String).any (containsPattern tag)
    then "MEDIUM"
  else "LOW"

/-- The fields of `AttestationResult` the claim refers to.  The
measurements, quote and platform fields are hash- and clock-derived and
never read by the validity/trust logic. -/
structure AttestationResultM where
  is_valid : Bool
  trust_level : String
deriving DecidableEq, Repr

/-- `TEEValidator._generate_attestation_result`, restricted to the
validity/trust fields. -/
def generateAttestationResult (tag : String) (randomDraw : Bool) :
    AttestationResultM :=
  let is_valid := assessImageTrustworthiness tag randomDraw
  { is_valid := is_valid, trust_level := calculateTrustLevel is_valid tag }

/-! ## Trust assessment (`llm_judge_original.py._calculate_trust_score`) -/

/-- `KeySecurityResult` (pydantic model). -/
structure KeySecurityResult where
  has_plaintext_keys : Bool
  key_generation_secure : Bool
  key_storage_encrypted : Bool
  key_rotation_implemented : Bool
  key_exposure_risk : String
  security_concerns : List String
  code_references : List String
deriving DecidableEq, Repr

/-- `TransactionControlResult` (pydantic model). -/
structure TransactionControlResult where
  has_spending_limits : Bool
  has_approval_mechanisms : Bool
  emergency_stop_present : Bool
  cross_chain_controls : Bool
  transaction_monitoring : Bool
  control_strength : String
  control_gaps : List String
deriving DecidableEq, Repr

/-- `DeceptionDetectionResult` (pydantic model). -/
structure DeceptionDetectionResult where
  backdoor_detected : Bool
  time_bomb_detected : Bool
  obfuscated_code_found : Bool
  data_exfiltration_risk : Bool
  environment_specific_behavior : Bool
  deception_indicators : List String
  risk_level : String
deriving DecidableEq, Repr

/-- `CapitalRiskResult` (pydantic model). -/
structure CapitalRiskResult where
  max_loss_bounded : Bool
  position_size_controls : Bool
  stop_loss_implemented : Bool
  leverage_controls : Bool
  flash_loan_usage : Bool
  risk_controls_adequate : Bool
  estimated_max_loss : String
deriving DecidableEq, Repr

/-- The fields of `TrustFocusedResult` that `_calculate_trust_score`
computes (the echoed analyzer inputs and the generated reasoning text are
not modelled). -/
structure TrustFocusedResult where
  can_trust_with_capital : Bool
  trust_score : ℚ
  critical_vulnerabilities : List String
  security_recommendations : List String
  confidence_level : ℚ
deriving DecidableEq, Repr

/-- `LLMJudge._calculate_trust_score` in `llm_judge_original.py`:
accumulate critical vulnerabilities, compute the weighted trust score
(key security 30%, transaction controls 25%, deception 20% starting from
1.0, capital risk 25%), and derive `can_trust_with_capital`. -/
def calculateTrustScore (ks : KeySecurityResult)
    (tc : TransactionControlResult) (da : DeceptionDetectionResult)
    (cr : CapitalRiskResult) : TrustFocusedResult :=
  let critical_vulnerabilities : List String :=
    (if ks.has_plaintext_keys then ["Private keys stored in plaintext"] else [])
    ++ (if tc.has_spending_limits = false then ["No transaction spending limits"] else [])
    ++ (if da.backdoor_detected then ["Backdoor access detected"] else [])
    ++ (if da.risk_level = "critical" then ["Critical deception patterns detected"] else [])
  let key_score : ℚ :=
    (if ks.has_plaintext_keys = false then 0.4 else 0)
    + (if ks.key_generation_secure then 0.3 else 0)
    + (if ks.key_storage_encrypted then 0.2 else 0)
    + (if ks.key_rotation_implemented then 0.1 else 0)
  let tx_score : ℚ :=
    (if tc.has_spending_limits then 0.4 else 0)
    + (if tc.has_approval_mechanisms then 0.3 else 0)
    + (if tc.emergency_stop_present then 0.2 else 0)
    + (if tc.transaction_monitoring then 0.1 else 0)
  let deception_score : ℚ := max 0
    ((1 : ℚ)
      - (if da.backdoor_detected then 0.5 else 0)
      - (if da.time_bomb_detected then 0.3 else 0)
      - (if da.obfuscated_code_found then 0.2 else 0))
  let capital_score : ℚ :=
    (if cr.max_loss_bounded then 0.3 else 0)
    + (if cr.position_size_controls then 0.3 else 0)
    + (if cr.stop_loss_implemented then 0.2 else 0)
    + (if cr.risk_controls_adequate then 0.2 else 0)
  let trust_score : ℚ :=
    key_score * 0.3 + tx_score * 0.25 + deception_score * 0.2
      + capital_score * 0.25
  let can_trust : Bool :=
    (critical_vulnerabilities.length == 0)
    && decide (trust_score > 0.8)
    && (ks.key_exposure_risk == "low" || ks.key_exposure_risk == "medium")
    && (tc.control_strength != "weak")
  let recommendations : List String :=
    (if ks.has_plaintext_keys then
      ["CRITICAL: Implement secure key storage (TEE/encryption)"] else [])
    ++ (if tc.has_spending_limits = false then
      ["CRITICAL: Add transaction spending limits"] else [])
    ++ (if cr.max_loss_bounded = false then
      ["HIGH: Implement maximum loss limits"] else [])
    ++ (if tc.emergency_stop_present = false then
      ["MEDIUM: Add emergency stop mechanisms"] else [])
  { can_trust_with_capital := can_trust,
    trust_score := trust_score,
    critical_vulnerabilities := critical_vulnerabilities,
    security_recommendations := recommendations,
    confidence_level := 0.85 }

/-! ## LLM judge conservative fallback (`llm_judge.py._generate_fallback_assessment`) -/

/-- The conservative fallback assessment, restricted to the fields the
scoring and status code reads: no score adjustments, neutral code quality
(all 0.5), conservative risk (systemic 0.8), one behavioral flag,
confidence 0.1. -/
def fallbackAssessment : LLMJudgeResult :=
  { score_adjustments := [],
    code_quality := some
      { architecture_score := 0.5, error_handling_score := 0.5,
        security_practices_score := 0.5, maintainability_score := 0.5,
        test_coverage_score := 0.5, overall_score := 0.5,
        key_findings := ["LLM evaluation unavailable - manual review recommended"] },
    risk_assessment := some
      { volatility_sensitivity := 0.7, liquidity_requirements := "high",
        systemic_risk_score := 0.8, market_impact_score := 0.6,
        operational_risk_score := 0.7, regulatory_risk_score := 0.8 },
    behavioral_flags := ["LLM evaluation failed - requires manual review"],
    confidence_level := 0.1 }

/-! ## Helper lemmas -/

/-- The Bool-valued confidence check agrees with the spec-side gate 9. -/
theorem lowConfidence_iff_gate9 (llm : Option LLMJudgeResult) :
    lowConfidence llm = true ↔ gate9 llm := by
  cases llm <;> simp [lowConfidence, gate9]

/-- Truncation toward zero is monotone. -/
theorem pyTrunc_mono {a b : ℚ} (h : a ≤ b) : pyTrunc a ≤ pyTrunc b := by
  unfold pyTrunc
  by_cases ha : a < 0 <;> by_cases hb : b < 0 <;> simp only [ha, hb, if_true, if_false]
  · exact Int.ceil_mono h
  · calc ⌈a⌉ ≤ 0 := Int.ceil_le.mpr (by exact_mod_cast ha.le)
    _ ≤ ⌊b⌋ := Int.floor_nonneg.mpr (not_lt.mp hb)
  · exact absurd (h.trans_lt hb) ha
  · exact Int.floor_mono h

/-- Flattening a disjunctive guard into a cascade of guards. -/
theorem ite_or_split {a b : Prop} [Decidable a] [Decidable b] {α : Sort _}
    (x y : α) :
    (if a ∨ b then x else y) = if a then x else if b then x else y := by
  by_cases ha : a <;> by_cases hb : b <;> simp [ha, hb]

/-- Lower clamp bound. -/
theorem clamp30_lower (x : ℚ) : -30 ≤ max (-30) (min 30 x) := le_max_left _ _

/-- Upper clamp bound. -/
theorem clamp30_upper (x : ℚ) : max (-30) (min 30 x) ≤ 30 :=
  max_le (by norm_num) (min_le_left _ _)

/-! ## Claim theorems -/

/-- C1 (counterexample): at an input whose strategy verification status is
`failed` (gate 5) and whose scan has six HIGH vulnerabilities (gate 6),
`cli.py._determine_overall_status` returns WARNING, while the claim's gate
order (gate 5 before gate 6, first match wins) demands FAILED. -/
theorem C1_status_counterexample :
    gate5 (some ⟨"failed", 50, 50, none⟩)
    ∧ determineOverallStatus
        ⟨List.replicate 6 ⟨some "HIGH"⟩, false⟩ ⟨true, "LOW"⟩ ⟨0, 0, 0⟩
        none (some ⟨"failed", 50, 50, none⟩) = "WARNING" := by
  constructor
  · rfl
  · decide

/-- C1 (amended): both copies of `_determine_overall_status` implement the
gate cascade in the order 1, 2, 3, flag-gate (FAILED); 6, 7, one-flag,
confidence (WARNING); then 5 (FAILED); then 10 (WARNING); else PASSED —
i.e. the strategy gates are evaluated after the warning gates, not before
them.  In the `cli.py` variant the flag count `llmRiskFlags` additionally
counts a systemic risk score above 0.8 as one serious flag. -/
theorem C1_status_gate_cascade :
    ∀ (scan : ScanResult) (tee : TeeResult) (perf : PerfResult)
      (llm : Option LLMJudgeResult) (strategy : Option StrategyResult),
      determineOverallStatus scan tee perf llm strategy
        = amendedStatusCascade scan tee perf (llmRiskFlags llm) (gate9 llm) strategy
      ∧ pvDetermineOverallStatus scan tee perf llm strategy
        = amendedStatusCascade scan tee perf (pvLlmRiskFlags llm) (gate9 llm) strategy := by
  intro scan tee perf llm strategy
  have hconf := lowConfidence_iff_gate9 llm
  constructor
  · unfold determineOverallStatus amendedStatusCascade
    cases strategy <;>
      simp only [gate5, gate10, ← hconf, ite_or_split, if_true, if_false]
  · unfold pvDetermineOverallStatus amendedStatusCascade
    cases strategy <;>
      simp only [gate5, gate10, ← hconf, ite_or_split, if_true, if_false]

/-- C2: every category adjustment (security, LLM, behavior) of both Fort
Score implementations is clamped to [−30, +30], and whenever the function
returns (it raises on an empty `performance_by_regime`, see C10) the final
score is an integer in [0, 180]; the parallel verifier's copy is total and
always lands in [0, 180]. -/
theorem C2_fort_score_bounds :
    ∀ (scan : ScanResult) (tee : TeeResult) (perf : PerfResult)
      (llm : Option LLMJudgeResult) (strategy : Option StrategyResult),
      (-30 ≤ securityAdjustment scan tee ∧ securityAdjustment scan tee ≤ 30)
      ∧ (-30 ≤ llmAdjustment llm ∧ llmAdjustment llm ≤ 30)
      ∧ (-30 ≤ behaviorAdjustment perf ∧ behaviorAdjustment perf ≤ 30)
      ∧ (∀ s : ℤ, calculateAgentFortScore scan tee perf llm strategy = some s →
          0 ≤ s ∧ s ≤ 180)
      ∧ (-30 ≤ pvLlmAdjustment llm ∧ pvLlmAdjustment llm ≤ 30)
      ∧ (0 ≤ pvCalculateAgentFortScore scan tee perf llm strategy
          ∧ pvCalculateAgentFortScore scan tee perf llm strategy ≤ 180) := by
  intro scan tee perf llm strategy
  refine ⟨⟨clamp30_lower _, clamp30_upper _⟩, ⟨clamp30_lower _, clamp30_upper _⟩,
    ⟨clamp30_lower _, clamp30_upper _⟩, ?_, ⟨clamp30_lower _, clamp30_upper _⟩, ?_, ?_⟩
  · intro s hs
    unfold calculateAgentFortScore at hs
    rcases Option.map_eq_some'.mp hs with ⟨p, _, rfl⟩
    exact ⟨le_max_left _ _, max_le (by norm_num) (min_le_left _ _)⟩
  · exact le_max_left _ _
  · exact max_le (by norm_num) (min_le_left _ _)

/-- C2 (witness): at the all-empty input the `cli.py` score evaluates to
100, which the theorem places in [0, 180]. -/
theorem C2_fort_score_bounds_witness :
    calculateAgentFortScore ⟨[], false⟩ ⟨true, "LOW"⟩ ⟨0, 0, 0⟩ none none
      = some 100
    ∧ (0 ≤ (100 : ℤ) ∧ (100 : ℤ) ≤ 180) := by
  have heq : calculateAgentFortScore ⟨[], false⟩ ⟨true, "LOW"⟩ ⟨0, 0, 0⟩ none none
      = some 100 := by
    norm_num +decide [calculateAgentFortScore, performanceAdjustment,
      securityAdjustment, securityAdjustmentRaw, llmAdjustment, llmAdjustmentRaw,
      behaviorAdjustment, behaviorAdjustmentRaw, severityCount, pyTrunc]
  exact ⟨heq,
    (C2_fort_score_bounds ⟨[], false⟩ ⟨true, "LOW"⟩ ⟨0, 0, 0⟩ none none).2.2.2.1
      100 heq⟩

/-- C3 (counterexample): a trade list with one winning trade and no losing
trade has `total_loss = 0`, yet the reported profit factor is the finite
`999.0`, not `float("inf")` — `_calculate_metrics` replaces the infinity
before building the `PerformanceMetrics`. -/
theorem C3_profit_factor_counterexample :
    totalLoss [⟨0, "BTC/USDT", "buy", 50000, 1, some 100, "arbitrage_buy"⟩] = 0
    ∧ (calculateMetrics [⟨0, "BTC/USDT", "buy", 50000, 1, some 100, "arbitrage_buy"⟩]
        100000 100100).profit_factor = some 999
    ∧ (some (999 : ℚ) ≠ (none : Option ℚ)) := by
  refine ⟨by decide, by decide, by decide⟩

/-- C3 (amended): whenever the total loss of the trade sequence is zero,
the computed performance metrics report `profit_factor = 999.0` (the
internal `float("inf")` is replaced by `999.0` in the returned metrics). -/
theorem C3_profit_factor_amended :
    ∀ (trades : List Trade) (ic fc : ℚ), totalLoss trades = 0 →
      (calculateMetrics trades ic fc).profit_factor = some 999 := by
  intro trades ic fc h
  simp [calculateMetrics, profitFactorRaw, h]

/-- C3 (witness). -/
theorem C3_profit_factor_amended_witness :
    totalLoss [⟨0, "BTC/USDT", "buy", 50000, 1, some 100, "arbitrage_buy"⟩] = 0
    ∧ (calculateMetrics [⟨0, "BTC/USDT", "buy", 50000, 1, some 100, "arbitrage_buy"⟩]
        100000 100100).profit_factor = some 999 :=
  ⟨by decide,
   C3_profit_factor_amended _ 100000 100100 (by decide)⟩

/-- C4 (counterexample): on a run whose stdout produced zero parsed trades,
`ContainerBacktester.run` returns a normal `BacktestResult` with an empty
trade list, unchanged capital and a zero trade count — it does not fail
(no `AgentProducedNoTrades` error exists anywhere in the repository). -/
theorem C4_no_trades_counterexample :
    (runFromLogs 100000 []).trades = []
    ∧ (runFromLogs 100000 []).final_capital = 100000
    ∧ (runFromLogs 100000 []).metrics.total_trades = 0 := by
  refine ⟨by decide, by decide, by decide⟩

/-- C4 (amended): whenever zero trades are parsed from the agent's stdout,
the backtest returns a `BacktestResult` with an empty trade list,
`final_capital = initial_capital` and `total_trades = 0`, instead of
failing. -/
theorem C4_no_trades_amended :
    ∀ (initial : ℚ) (lines : List LogLine), parseAgentLogs lines = [] →
      (runFromLogs initial lines).trades = []
      ∧ (runFromLogs initial lines).final_capital = initial
      ∧ (runFromLogs initial lines).metrics.total_trades = 0 := by
  intro initial lines h
  refine ⟨?_, ?_, ?_⟩ <;> simp [runFromLogs, h, finalCapitalFrom, calculateMetrics]

/-- C4 (witness). -/
theorem C4_no_trades_amended_witness :
    (runFromLogs 100000 []).trades = []
    ∧ (runFromLogs 100000 []).final_capital = 100000
    ∧ (runFromLogs 100000 []).metrics.total_trades = 0 :=
  C4_no_trades_amended 100000 [] (by decide)

/-- C6: the final capital reported by the container backtester is the
initial capital plus the sum of all non-null realized PnL fields (a null
PnL contributes zero), and the reported trade count is the number of
parsed trades, PnL or not. -/
theorem C6_final_capital_conservation :
    ∀ (initial : ℚ) (lines : List LogLine),
      (runFromLogs initial lines).final_capital
        = initial + ((parseAgentLogs lines).map (fun t => t.pnl.getD 0)).sum
      ∧ (runFromLogs initial lines).metrics.total_trades
        = (parseAgentLogs lines).length := by
  intro initial lines
  constructor
  · show finalCapitalFrom initial (parseAgentLogs lines) = _
    generalize parseAgentLogs lines = trades
    induction trades generalizing initial with
    | nil => simp [finalCapitalFrom]
    | cons t rest ih =>
      rcases ht : t.pnl with _ | p
      · simpa [finalCapitalFrom, ht, List.foldl_cons] using ih initial
      · by_cases hp : p = 0
        · subst hp
          simpa [finalCapitalFrom, ht, List.foldl_cons] using ih initial
        · have := ih (initial + p)
          simp only [finalCapitalFrom, List.foldl_cons, ht, if_pos hp,
            List.map_cons, List.sum_cons, Option.getD_some] at this ⊢
          rw [this]; ring
  · simp [runFromLogs, calculateMetrics]

/-- C7: for every image tag (and either outcome of the random fall-through
draw), an attestation result with `is_valid = false` carries trust level
UNTRUSTED. -/
theorem C7_invalid_implies_untrusted :
    ∀ (tag : String) (draw : Bool),
      (generateAttestationResult tag draw).is_valid = false →
      (generateAttestationResult tag draw).trust_level = "UNTRUSTED" := by
  intro tag draw h
  simp only [generateAttestationResult] at h ⊢
  rw [h]
  rfl

/-- C7 (witness): the tag `test-malware:v1` matches an untrusted pattern,
so its attestation is invalid, and the theorem yields UNTRUSTED. -/
theorem C7_invalid_implies_untrusted_witness :
    (generateAttestationResult "test-malware:v1" true).is_valid = false
    ∧ (generateAttestationResult "test-malware:v1" true).trust_level
        = "UNTRUSTED" :=
  ⟨by decide, C7_invalid_implies_untrusted "test-malware:v1" true (by decide)⟩

/-- C8: the trust assessment grants `can_trust_with_capital` exactly when
the accumulated critical-vulnerability list is empty, the weighted trust
score exceeds 0.8, the key exposure risk is low or medium, and the control
strength is not weak. -/
theorem C8_can_trust_iff :
    ∀ (ks : KeySecurityResult) (tc : TransactionControlResult)
      (da : DeceptionDetectionResult) (cr : CapitalRiskResult),
      (calculateTrustScore ks tc da cr).can_trust_with_capital = true
      ↔ ((calculateTrustScore ks tc da cr).critical_vulnerabilities = []
         ∧ (calculateTrustScore ks tc da cr).trust_score > 0.8
         ∧ (ks.key_exposure_risk = "low" ∨ ks.key_exposure_risk = "medium")
         ∧ tc.control_strength ≠ "weak") := by
  intro ks tc da cr
  simp [calculateTrustScore, List.length_eq_zero, and_assoc]

/-- Helper for C9: a line yields a trade exactly when it satisfies the
spec-side well-formedness predicate. -/
theorem parseLine_isSome_eq (l : LogLine) :
    (parseLine l).isSome = specTradeLine l := by
  cases l with
  | empty => rfl
  | notJson => rfl
  | jsonNonObject => rfl
  | jsonObject d =>
    rcases d with ⟨action, ts, sym, sd, pr, am, pnl, rsn⟩
    cases action with
    | none => rfl
    | some a =>
      by_cases ha : a ∈ tradeActions
      · rcases ts with _ | ⟨_ | t⟩ <;> rcases sym with _ | sym <;>
          rcases sd with _ | sd <;> rcases pr with _ | pr <;>
          rcases am with _ | am <;>
          simp [parseLine, specTradeLine, ha]
      · simp [parseLine, specTradeLine, ha]

/-- C9 (counterexample): a JSON line whose `action` is `arbitrage_buy` but
which lacks a `timestamp` yields no trade (the `Trade(...)` construction
raises and the parser skips the line with a warning), so the claim's
"one trade per JSON line with a trade action" fails. -/
theorem C9_parse_counterexample :
    (JsonTradeObj.action
        ⟨some "arbitrage_buy", none, some "BTCUSDT", some "buy",
         some 50000, some 1, none, none⟩ = some "arbitrage_buy"
     ∧ "arbitrage_buy" ∈ tradeActions)
    ∧ parseAgentLogs
        [LogLine.jsonObject
          ⟨some "arbitrage_buy", none, some "BTCUSDT", some "buy",
           some 50000, some 1, none, none⟩] = [] := by
  exact ⟨⟨by decide, by decide⟩, by decide⟩

/-- C9 (amended): the parser returns exactly one trade, in stdout order,
per line that parses as JSON, has a trade `action`, and carries all the
required fields (`timestamp` parseable, `symbol`, `side`, `price`,
`amount` present); every other line — including JSON lines with a trade
action but missing or malformed required fields — yields no trade, and
the reported trade count equals the number of such well-formed lines. -/
theorem C9_parse_amended :
    (∀ l : LogLine, (parseLine l).isSome = specTradeLine l)
    ∧ ∀ lines : List LogLine,
        (parseAgentLogs lines).length = lines.countP specTradeLine := by
  refine ⟨parseLine_isSome_eq, ?_⟩
  intro lines
  induction lines with
  | nil => rfl
  | cons l rest ih =>
    rw [parseAgentLogs, List.filterMap_cons, List.countP_cons]
    rcases hl : parseLine l with _ | t
    · have hs : specTradeLine l = false := by
        rw [← parseLine_isSome_eq, hl]; rfl
      simpa [hs, parseAgentLogs] using ih
    · have hs : specTradeLine l = true := by
        rw [← parseLine_isSome_eq, hl]; rfl
      simpa [hs, parseAgentLogs] using ih

/-- C10: the Fort Score computation of `cli.py` is not total — with a
strategy result present whose `performance_by_regime` dict is empty, the
regime-consistency bonus divides by `len(performance_by_regime) = 0` and
the function raises `ZeroDivisionError` (modelled by `none`) instead of
returning a score. -/
theorem C10_regime_division_by_zero :
    performanceAdjustment (some ⟨"verified", 50, 50, some []⟩) ⟨0, 0, 0⟩ = none
    ∧ calculateAgentFortScore ⟨[], false⟩ ⟨true, "LOW"⟩ ⟨0, 0, 0⟩ none
        (some ⟨"verified", 50, 50, some []⟩) = none := by
  exact ⟨rfl, rfl⟩

/-- C5 (counterexample): with no vulnerabilities, a valid LOW-trust
attestation, benign performance, and no strategy result, a successfully
parsed LLM result with `score_adjustments = {"risk_management": -50}`,
neutral code quality, systemic risk 0.8, two serious behavioral flags and
confidence 0.9 scores 75 and fails (two serious flags), while the
conservative fallback scores 94 and only warns: the fallback both raises
the score and upgrades the status. -/
theorem C5_fallback_counterexample :
    calculateAgentFortScore ⟨[], false⟩ ⟨true, "LOW"⟩ ⟨1000, 50, 0⟩
        (some ⟨[("risk_management", -50)],
          some ⟨0.5, 0.5, 0.5, 0.5, 0.5, 0.5, []⟩,
          some ⟨0.5, "medium", 0.8, 0.5, 0.5, 0.5⟩,
          ["malicious pattern detected", "dangerous external calls"], 0.9⟩)
        none = some 75
    ∧ calculateAgentFortScore ⟨[], false⟩ ⟨true, "LOW"⟩ ⟨1000, 50, 0⟩
        (some fallbackAssessment) none = some 94
    ∧ ¬((94 : ℤ) ≤ 75)
    ∧ determineOverallStatus ⟨[], false⟩ ⟨true, "LOW"⟩ ⟨1000, 50, 0⟩
        (some ⟨[("risk_management", -50)],
          some ⟨0.5, 0.5, 0.5, 0.5, 0.5, 0.5, []⟩,
          some ⟨0.5, "medium", 0.8, 0.5, 0.5, 0.5⟩,
          ["malicious pattern detected", "dangerous external calls"], 0.9⟩)
        none = "FAILED"
    ∧ determineOverallStatus ⟨[], false⟩ ⟨true, "LOW"⟩ ⟨1000, 50, 0⟩
        (some fallbackAssessment) none = "WARNING" := by
  refine ⟨?_, ?_, by decide, ?_, ?_⟩ <;>
    norm_num +decide [calculateAgentFortScore, performanceAdjustment,
      securityAdjustment, securityAdjustmentRaw, llmAdjustment,
      llmAdjustmentRaw, behaviorAdjustment, behaviorAdjustmentRaw,
      severityCount, pyTrunc, fallbackAssessment, determineOverallStatus,
      llmRiskFlags, seriousFlagCount, lowConfidence, List.countP_cons,
      List.countP_nil, min_def, max_def]

/-- C5 (amended): the conservative fallback pins the clamped LLM
adjustment at −11, so it cannot raise the Fort Score above a successful
result whose own clamped adjustment is at least −11; the status computed
with the fallback is never PASSED (its confidence 0.1 trips the
low-confidence warning gate); and a FAILED verdict coming from the
non-LLM gates (critical vulnerability, invalid attestation, error rate
above 10%) is preserved under the fallback.  In general, however, the
fallback can raise the score and upgrade the status (see the
counterexample). -/
theorem C5_fallback_amended :
    ∀ (scan : ScanResult) (tee : TeeResult) (perf : PerfResult)
      (strategy : Option StrategyResult) (success : LLMJudgeResult),
      llmAdjustment (some fallbackAssessment) = -11
      ∧ (∀ s₁ s₂ : ℤ, -11 ≤ llmAdjustment (some success) →
          calculateAgentFortScore scan tee perf (some fallbackAssessment)
            strategy = some s₁ →
          calculateAgentFortScore scan tee perf (some success)
            strategy = some s₂ →
          s₁ ≤ s₂)
      ∧ determineOverallStatus scan tee perf (some fallbackAssessment)
          strategy ≠ "PASSED"
      ∧ ((0 < severityCount scan "CRITICAL" ∨ tee.is_valid = false
            ∨ perf.error_rate_percent > 10) →
          determineOverallStatus scan tee perf (some fallbackAssessment)
            strategy = "FAILED") := by
  intro scan tee perf strategy success
  have hfall : llmAdjustment (some fallbackAssessment) = -11 := by
    norm_num [llmAdjustment, llmAdjustmentRaw, fallbackAssessment,
      min_def, max_def]
  have hlc : lowConfidence (some fallbackAssessment) = true := by
    norm_num [lowConfidence, fallbackAssessment]
  refine ⟨hfall, ?_, ?_, ?_⟩
  · intro s₁ s₂ hadj h1 h2
    unfold calculateAgentFortScore at h1 h2
    rcases Option.map_eq_some'.mp h1 with ⟨p, hp, rfl⟩
    rcases Option.map_eq_some'.mp h2 with ⟨p', hp', rfl⟩
    rw [hp] at hp'
    cases Option.some.inj hp'
    have hX : 100 + securityAdjustment scan tee
        + llmAdjustment (some fallbackAssessment)
        + behaviorAdjustment perf + p
        ≤ 100 + securityAdjustment scan tee + llmAdjustment (some success)
        + behaviorAdjustment perf + p := by
      rw [hfall]
      have := add_le_add_right (add_le_add_left hadj
        (100 + securityAdjustment scan tee)) (behaviorAdjustment perf + p)
      linarith
    exact max_le_max le_rfl (min_le_min le_rfl (pyTrunc_mono hX))
  · unfold determineOverallStatus
    split_ifs
    all_goals decide
  · intro h
    unfold determineOverallStatus
    rcases h with h | h | h <;> split_ifs <;> rfl

/-- C5 (witness): concrete application — with benign inputs the fallback
scores 89; against a neutral successful result (clamped adjustment 0,
score 100) the theorem gives 89 ≤ 100 and a non-PASSED fallback status. -/
theorem C5_fallback_amended_witness :
    -11 ≤ llmAdjustment (some ⟨[], none, none, [], 1⟩)
    ∧ (89 : ℤ) ≤ 100
    ∧ determineOverallStatus ⟨[], false⟩ ⟨true, "LOW"⟩ ⟨0, 0, 0⟩
        (some fallbackAssessment) none ≠ "PASSED" := by
  have h := C5_fallback_amended ⟨[], false⟩ ⟨true, "LOW"⟩ ⟨0, 0, 0⟩ none
    ⟨[], none, none, [], 1⟩
  have hadj : -11 ≤ llmAdjustment (some ⟨[], none, none, [], 1⟩) := by
    norm_num [llmAdjustment, llmAdjustmentRaw, min_def, max_def]
  have h1 : calculateAgentFortScore ⟨[], false⟩ ⟨true, "LOW"⟩ ⟨0, 0, 0⟩
      (some fallbackAssessment) none = some 89 := by
    norm_num +decide [calculateAgentFortScore, performanceAdjustment,
      securityAdjustment, securityAdjustmentRaw, llmAdjustment,
      llmAdjustmentRaw, behaviorAdjustment, behaviorAdjustmentRaw,
      severityCount, pyTrunc, fallbackAssessment, min_def, max_def]
  have h2 : calculateAgentFortScore ⟨[], false⟩ ⟨true, "LOW"⟩ ⟨0, 0, 0⟩
      (some ⟨[], none, none, [], 1⟩) none = some 100 := by
    norm_num +decide [calculateAgentFortScore, performanceAdjustment,
      securityAdjustment, securityAdjustmentRaw, llmAdjustment,
      llmAdjustmentRaw, behaviorAdjustment, behaviorAdjustmentRaw,
      severityCount, pyTrunc, min_def, max_def]
  exact ⟨hadj, h.2.1 89 100 hadj h1 h2, h.2.2.1⟩

end ArcVerifier
